import Mathlib

/-!
# Verification of the algorithmic-trading framework's signal and execution logic

Shallow embedding of the repository's strategy, execution-policy, backtest-adapter
and live-trading-loop code. Prices, indicator values, quantities and positions are
modelled as rationals (the Python code only compares and takes min of them).

The external libraries (pandas_ta indicator transforms, the Alpaca broker API,
the backtrader engine internals) are out of scope per the specification; they are
modelled as oracle parameters:
- an indicator oracle maps the close series and the named parameters to the
  final (current-bar) indicator value, or `none` when the transform returned
  None / an empty series or the final value is NaN;
- broker calls are modelled by `Except`-valued results (`Except.error` models a
  raised exception).

Reason strings are the source's messages with numeric interpolation elided.
-/

namespace Trading

inductive Action where
  | buy
  | sell
  | hold
deriving DecidableEq, Repr

structure Signal where
  action : Action
  quantity : ℚ
  reason : String
deriving DecidableEq, Repr

/-! ## RSI strategy (src/trading_framework/strategies/rsi_strategy.py) -/

structure RSIParams where
  rsi_period : Nat
  oversold : ℚ
  overbought : ℚ
  position_size : ℚ
deriving DecidableEq, Repr

/-- Default parameters of `RSIStrategy.__init__`. -/
def RSIStrategy.defaultParams : RSIParams := ⟨14, 30, 70, 10⟩

/-- StrategyState of `RSIStrategy`: the field `self.last_rsi` (None at construction). -/
structure RSIState where
  last_rsi : Option ℚ
deriving DecidableEq, Repr

/-- State of a freshly constructed `RSIStrategy` (`self.last_rsi = None`). -/
def RSIStrategy.freshState : RSIState := ⟨none⟩

/-- `RSIStrategy.on_data`. `taRsi` models the external `pandas_ta.rsi` call:
given the close series and `rsi_period` it yields the final RSI value, `none`
covering the source's "rsi is None or rsi.empty" and "RSI is NaN" early returns
(both produce a hold with quantity 0 and leave the state untouched, which is all
the properties below depend on). Returns the produced signal together with the
updated strategy state. -/
def RSIStrategy.on_data (taRsi : List ℚ → Nat → Option ℚ) (p : RSIParams)
    (s : RSIState) (close : List ℚ) : Signal × RSIState :=
  if close.length < p.rsi_period + 1 then
    (⟨Action.hold, 0, "Insufficient data for RSI calculation"⟩, s)
  else
    match taRsi close p.rsi_period with
    | none => (⟨Action.hold, 0, "RSI calculation failed"⟩, s)
    | some current_rsi =>
      let base : Signal := ⟨Action.hold, 0, "RSI and price diagnostic"⟩
      let sig : Signal :=
        if current_rsi < p.oversold then
          match s.last_rsi with
          | some last_rsi =>
            if p.oversold ≤ last_rsi then
              ⟨Action.buy, p.position_size, "RSI oversold crossover"⟩
            else base
          | none => base
        else if p.overbought < current_rsi then
          match s.last_rsi with
          | some last_rsi =>
            if last_rsi ≤ p.overbought then
              ⟨Action.sell, p.position_size, "RSI overbought crossover"⟩
            else base
          | none => base
        else base
      (sig, ⟨some current_rsi⟩)

/-! ## Moving-average crossover strategy (src/trading_framework/strategies/ma_crossover.py) -/

structure MAParams where
  fast_period : Nat
  slow_period : Nat
  ma_type : String
  position_size : ℚ
deriving DecidableEq, Repr

/-- Default parameters of `MovingAverageCrossover.__init__`. -/
def MovingAverageCrossover.defaultParams : MAParams := ⟨10, 30, "SMA", 10⟩

/-- StrategyState of `MovingAverageCrossover`: `self.last_fast_ma`, `self.last_slow_ma`. -/
structure MAState where
  last_fast_ma : Option ℚ
  last_slow_ma : Option ℚ
deriving DecidableEq, Repr

/-- State of a freshly constructed `MovingAverageCrossover`. -/
def MovingAverageCrossover.freshState : MAState := ⟨none, none⟩

/-- Python's `str.upper()` on the characters of the string (the `ma_type`
values in play are plain ASCII). -/
def strUpper (s : String) : String := ⟨s.data.map Char.toUpper⟩

/-- The moving-average transform selected by `ma_type` ("EMA" selects
`pandas_ta.ema`, anything else `pandas_ta.sma`, after upper-casing). -/
def MovingAverageCrossover.maOracle (taSma taEma : List ℚ → Nat → Option ℚ)
    (p : MAParams) : List ℚ → Nat → Option ℚ :=
  if strUpper p.ma_type = "EMA" then taEma else taSma

/-- `MovingAverageCrossover.on_data`. `taSma` and `taEma` model the external
`pandas_ta.sma` / `pandas_ta.ema` calls, giving the final value of the moving
average of the requested length (`none` covering a None / empty / NaN result). -/
def MovingAverageCrossover.on_data (taSma taEma : List ℚ → Nat → Option ℚ)
    (p : MAParams) (s : MAState) (close : List ℚ) : Signal × MAState :=
  if close.length < p.slow_period + 1 then
    (⟨Action.hold, 0, "Insufficient data for MA calculation"⟩, s)
  else
    let ma := MovingAverageCrossover.maOracle taSma taEma p
    match ma close p.fast_period, ma close p.slow_period with
    | some current_fast_ma, some current_slow_ma =>
      let base : Signal := ⟨Action.hold, 0, "MA values and price diagnostic"⟩
      let sig : Signal :=
        match s.last_fast_ma, s.last_slow_ma with
        | some last_fast_ma, some last_slow_ma =>
          if last_fast_ma ≤ last_slow_ma ∧ current_slow_ma < current_fast_ma then
            ⟨Action.buy, p.position_size, "Golden cross"⟩
          else if last_slow_ma ≤ last_fast_ma ∧ current_fast_ma < current_slow_ma then
            ⟨Action.sell, p.position_size, "Death cross"⟩
          else base
        | _, _ => base
      (sig, ⟨some current_fast_ma, some current_slow_ma⟩)
    | _, _ => (⟨Action.hold, 0, "MA calculation failed"⟩, s)

/-! ## MACD crossover strategy (src/trading_framework/strategies/macd_crossover.py) -/

structure MACDParams where
  macd_fast : Nat
  macd_slow : Nat
  macd_signal : Nat
  position_size : ℚ
deriving DecidableEq, Repr

/-- Default parameters of `MACDCrossover.__init__`. -/
def MACDCrossover.defaultParams : MACDParams := ⟨12, 26, 9, 10⟩

/-- StrategyState of `MACDCrossover`: `self.last_macd`, `self.last_signal`. -/
structure MACDState where
  last_macd : Option ℚ
  last_signal : Option ℚ
deriving DecidableEq, Repr

/-- State of a freshly constructed `MACDCrossover`. -/
def MACDCrossover.freshState : MACDState := ⟨none, none⟩

/-- `MACDCrossover.on_data`. `taMacd` models the external `pandas_ta.macd` call:
given the close series and fast/slow/signal spans it yields the final
(MACD line, signal line) pair; `none` covers the source's "None or empty",
"columns missing" and "NaN" early returns (each a hold with quantity 0 that
leaves the state untouched). -/
def MACDCrossover.on_data (taMacd : List ℚ → Nat → Nat → Nat → Option (ℚ × ℚ))
    (p : MACDParams) (s : MACDState) (close : List ℚ) : Signal × MACDState :=
  if close.length < max p.macd_slow 30 then
    (⟨Action.hold, 0, "Insufficient data for MACD"⟩, s)
  else
    match taMacd close p.macd_fast p.macd_slow p.macd_signal with
    | none => (⟨Action.hold, 0, "MACD calculation failed"⟩, s)
    | some (current_macd, current_sig) =>
      let base : Signal := ⟨Action.hold, 0, "MACD and signal diagnostic"⟩
      let sig : Signal :=
        match s.last_macd, s.last_signal with
        | some last_macd, some last_signal =>
          if last_macd ≤ last_signal ∧ current_sig < current_macd then
            ⟨Action.buy, p.position_size, "MACD bullish crossover"⟩
          else if last_signal ≤ last_macd ∧ current_macd < current_sig then
            ⟨Action.sell, p.position_size, "MACD bearish crossover"⟩
          else base
        | _, _ => base
      (sig, ⟨some current_macd, some current_sig⟩)

/-! ## Composite strategy (src/examples/custom_strategy.py) -/

structure CompositeParams where
  rsi_period : Nat
  rsi_oversold : ℚ
  rsi_overbought : ℚ
  macd_fast : Nat
  macd_slow : Nat
  macd_signal : Nat
  volume_threshold : ℚ
  position_size : ℚ
deriving DecidableEq, Repr

/-- Default parameters of `MyCustomStrategy.__init__` (volume_threshold = 1.5). -/
def MyCustomStrategy.defaultParams : CompositeParams := ⟨14, 30, 70, 12, 26, 9, 3 / 2, 10⟩

/-- `data['volume'].iloc[-20:].mean()`: the mean of the last (at most) 20 volumes. -/
def MyCustomStrategy.avgVolume (volume : List ℚ) : ℚ :=
  let tail20 := volume.drop (volume.length - 20)
  tail20.foldl (fun a b => a + b) 0 / (tail20.length : ℚ)

/-- `MyCustomStrategy.on_data` (the Composite RSI + MACD + volume strategy).
Stateless: it reads no previous-indicator memory and writes none (the class
stores no per-instance state beyond its parameters). `close` and `volume` are
the two columns of the OHLCV frame that it reads (equal length, `len(data)` is
their common length). -/
def MyCustomStrategy.on_data (taRsi : List ℚ → Nat → Option ℚ)
    (taMacd : List ℚ → Nat → Nat → Nat → Option (ℚ × ℚ))
    (p : CompositeParams) (close volume : List ℚ) : Signal :=
  if close.length < 50 then ⟨Action.hold, 0, "Insufficient data"⟩
  else
    match taRsi close p.rsi_period, taMacd close p.macd_fast p.macd_slow p.macd_signal with
    | some current_rsi, some (current_macd, current_signal) =>
      let current_volume := volume.getLastD 0
      let avg_volume := MyCustomStrategy.avgVolume volume
      if current_rsi < p.rsi_oversold ∧ current_signal < current_macd ∧
          avg_volume * p.volume_threshold < current_volume then
        ⟨Action.buy, p.position_size, "All buy conditions met"⟩
      else if p.rsi_overbought < current_rsi ∧ current_macd < current_signal ∧
          avg_volume * p.volume_threshold < current_volume then
        ⟨Action.sell, p.position_size, "All sell conditions met"⟩
      else ⟨Action.hold, 0, "No clear signal"⟩
    | _, _ => ⟨Action.hold, 0, "Indicator calculation failed"⟩

/-! ## Live trading (src/trading_framework/live_trading/trader.py) -/

/-- An order request: the side and share quantity passed to the broker API. -/
structure Order where
  side : Action
  qty : ℚ
deriving DecidableEq, Repr

/-- `LiveTrader.get_current_position`. `lookup` models the external
`trading_client.get_open_position` call (`Except.error` = any raised exception,
covering both "no position" and service failures). The bare `except` clause of
the source maps every exception to `0.0`. -/
def LiveTrader.get_current_position (lookup : Except String ℚ) : ℚ :=
  match lookup with
  | Except.ok q => q
  | Except.error _ => 0

/-- The Bool returned by `LiveTrader.place_market_order`: `submit_order` raising
is caught and reported, yielding False; otherwise True. -/
def LiveTrader.place_market_order (submitRes : Except String String) : Bool :=
  match submitRes with
  | Except.ok _ => true
  | Except.error _ => false

/-- `LiveTrader.execute_signal`. `positionLookup` models the
`get_open_position` broker call and `submitRes` the `submit_order` call made
inside `place_market_order` (if one is made). The first component is the order
request passed to `place_market_order` (none = no order submitted), the second
is the Bool that `execute_signal` returns. -/
def LiveTrader.execute_signal (positionLookup : Except String ℚ)
    (submitRes : Except String String) (sig : Signal) : Option Order × Bool :=
  if sig.action = Action.hold ∨ sig.quantity = 0 then (none, true)
  else
    let current_position := LiveTrader.get_current_position positionLookup
    match sig.action with
    | Action.buy =>
      if 0 ≤ current_position then
        (some ⟨Action.buy, sig.quantity⟩, LiveTrader.place_market_order submitRes)
      else (none, false)
    | Action.sell =>
      if 0 < current_position then
        (some ⟨Action.sell, min sig.quantity current_position⟩,
         LiveTrader.place_market_order submitRes)
      else (none, false)
    | Action.hold => (none, false)

/-- The external conditions of one cycle of the live loop: the result of the
`get_historical_data` fetch (`Except.error` = a raised service exception; the
payload is the close series handed to the strategy), of the position lookup,
and of the order submission. -/
structure CycleEnv where
  fetch : Except String (List ℚ)
  positionLookup : Except String ℚ
  submitRes : Except String String

/-- `LiveTrader.run_once`, generic over the strategy (`step` is the strategy's
`on_data`, explicit state passing over state type σ). The source wraps nothing
in try/except here: a raised fetch exception propagates to the caller
(`Except.error`). An empty frame prints "No data available" and returns without
evaluating the strategy. On success returns the updated strategy state and the
order request submitted this cycle, if any. -/
def LiveTrader.run_once {σ : Type} (step : σ → List ℚ → Signal × σ)
    (env : CycleEnv) (s : σ) : Except String (σ × Option Order) :=
  match env.fetch with
  | Except.error e => Except.error e
  | Except.ok data =>
    if data.isEmpty then Except.ok (s, none)
    else
      let out := step s data
      let ex := LiveTrader.execute_signal env.positionLookup env.submitRes out.1
      Except.ok (out.2, ex.1)

/-- `LiveTrader.run`: the polling loop. Its try/except catches only
KeyboardInterrupt, so any other exception escaping `run_once` terminates the
loop. `envs` lists the external conditions of the successive scheduled cycles;
the result is the order request of each cycle that ran to completion, paired
with the uncaught exception (if one terminated the loop early). -/
def LiveTrader.run {σ : Type} (step : σ → List ℚ → Signal × σ) :
    List CycleEnv → σ → List (Option Order) × Option String
  | [], _ => ([], none)
  | env :: rest, s =>
    match LiveTrader.run_once step env s with
    | Except.error e => ([], some e)
    | Except.ok (s2, ord) =>
      let tail := LiveTrader.run step rest s2
      (ord :: tail.1, tail.2)

/-! ## Backtest adapter (src/trading_framework/backtesting/backtester.py) -/

/-- State owned by `BacktraderStrategyWrapper`: the pending order marker
`self.order` (reset to None by `notify_order` once the order completes) and the
wrapped strategy's own StrategyState. -/
structure WrapperState (σ : Type) where
  order : Option Order
  stratState : σ
deriving DecidableEq, Repr

/-- `BacktraderStrategyWrapper.next` (one per-bar step), generic over the
wrapped strategy (`step` = its `on_data`, state type σ, modelled with the
`custom_strategy` parameter present). `position` is the size of
`self.position` in the backtrader broker (`not self.position` = size 0);
`frame` is the close series `_get_dataframe` yields for this bar. Returns the
wrapper state after the step and the order newly created this bar via
`self.buy` / `self.sell` (if any). -/
def BacktraderStrategyWrapper.next {σ : Type} (step : σ → List ℚ → Signal × σ)
    (position : ℚ) (frame : List ℚ) (w : WrapperState σ) :
    WrapperState σ × Option Order :=
  match w.order with
  | some _ => (w, none)
  | none =>
    let out := step w.stratState frame
    if out.1.action = Action.buy ∧ 0 < out.1.quantity then
      if position = 0 then
        (⟨some ⟨Action.buy, out.1.quantity⟩, out.2⟩, some ⟨Action.buy, out.1.quantity⟩)
      else (⟨none, out.2⟩, none)
    else if out.1.action = Action.sell ∧ 0 < out.1.quantity then
      if position ≠ 0 then
        (⟨some ⟨Action.sell, out.1.quantity⟩, out.2⟩, some ⟨Action.sell, out.1.quantity⟩)
      else (⟨none, out.2⟩, none)
    else (⟨none, out.2⟩, none)

/-! ## Concrete environments used by witnesses and counterexamples -/

/-- `pandas_ta.rsi` outcome putting the current RSI at 25 (below the default
oversold threshold of 30), as a falling price series produces. -/
def taRsiOversold : List ℚ → Nat → Option ℚ := fun _ _ => some 25

/-- `pandas_ta.macd` outcome with the MACD line (2) above the signal line (1). -/
def taMacdBullish : List ℚ → Nat → Nat → Nat → Option (ℚ × ℚ) := fun _ _ _ _ => some (2, 1)

/-- A 50-bar close series (long enough for the Composite strategy). -/
def closeFifty : List ℚ := List.replicate 50 1

/-- A 50-bar volume series whose final bar (100) is far above the trailing
20-bar average volume ((19 * 10 + 100) / 20 = 14.5). -/
def volumeSpike : List ℚ := List.replicate 49 10 ++ [100]

/-- A cycle whose historical-data fetch raises (e.g. a network failure). -/
def cycleFetchFails : CycleEnv := ⟨Except.error "connection error", Except.ok 0, Except.ok "id"⟩

/-- A later, healthy cycle that should have run if failures were cycle-local. -/
def cycleHealthy : CycleEnv := ⟨Except.ok [1, 2, 3], Except.ok 0, Except.ok "id"⟩

/-! ## Theorems -/

/-- Helper: once the stored RSI is strictly below the oversold threshold, no
subsequent evaluation can fire a buy (the prior-sample side of the crossing
test is non-strict: it requires the stored RSI to be at or above the
threshold). -/
theorem rsi_no_buy_of_last_below_oversold (taRsi : List ℚ → Nat → Option ℚ)
    (p : RSIParams) (l : ℚ) (close : List ℚ) (h : l < p.oversold) :
    (RSIStrategy.on_data taRsi p ⟨some l⟩ close).1.action ≠ Action.buy := by
  unfold RSIStrategy.on_data
  by_cases hlen : close.length < p.rsi_period + 1
  · simp [hlen]
  · rcases hr : taRsi close p.rsi_period with _ | cur
    · simp [hlen, hr]
    · simp only [hlen, if_false, hr]
      split_ifs with h1 h2 h3 h4 <;> simp_all
      linarith

/-- C1: with a long-enough window and a defined RSI value, `on_data` fires a
buy of `position_size` shares exactly when the stored previous RSI is ≥ the
oversold threshold and the current RSI is < it, fires a sell of
`position_size` exactly when the stored previous RSI is ≤ the overbought
threshold and the current RSI is > it, a hold carries quantity 0, the state is
overwritten with the current RSI, and once the current RSI is strictly below
oversold the following evaluation can never fire a buy (no re-firing while
pinned past the boundary). -/
theorem C1_rsi_threshold_cross (taRsi : List ℚ → Nat → Option ℚ) (p : RSIParams)
    (s : RSIState) (close : List ℚ) (cur : ℚ)
    (hp : p.oversold ≤ p.overbought)
    (hlen : p.rsi_period + 1 ≤ close.length)
    (hrsi : taRsi close p.rsi_period = some cur) :
    ((RSIStrategy.on_data taRsi p s close).1.action = Action.buy ∧
        (RSIStrategy.on_data taRsi p s close).1.quantity = p.position_size ↔
      ∃ prev, s.last_rsi = some prev ∧ p.oversold ≤ prev ∧ cur < p.oversold) ∧
    ((RSIStrategy.on_data taRsi p s close).1.action = Action.sell ∧
        (RSIStrategy.on_data taRsi p s close).1.quantity = p.position_size ↔
      ∃ prev, s.last_rsi = some prev ∧ prev ≤ p.overbought ∧ p.overbought < cur) ∧
    ((RSIStrategy.on_data taRsi p s close).1.action = Action.hold →
      (RSIStrategy.on_data taRsi p s close).1.quantity = 0) ∧
    (RSIStrategy.on_data taRsi p s close).2 = ⟨some cur⟩ ∧
    (cur < p.oversold → ∀ close2 : List ℚ,
      (RSIStrategy.on_data taRsi p (RSIStrategy.on_data taRsi p s close).2 close2).1.action
        ≠ Action.buy) := by
  have hne : ¬ close.length < p.rsi_period + 1 := by omega
  obtain ⟨lr⟩ := s
  cases lr with
  | none =>
    have hmain : RSIStrategy.on_data taRsi p ⟨none⟩ close =
        (⟨Action.hold, 0, "RSI and price diagnostic"⟩, ⟨some cur⟩) := by
      unfold RSIStrategy.on_data
      rw [if_neg hne, hrsi]
      dsimp only
      split_ifs <;> rfl
    rw [hmain]
    refine ⟨by simp, by simp, by simp, rfl, ?_⟩
    intro hcur close2
    exact rsi_no_buy_of_last_below_oversold taRsi p cur close2 hcur
  | some prev =>
    have hmain : RSIStrategy.on_data taRsi p ⟨some prev⟩ close =
        ((if cur < p.oversold then
            if p.oversold ≤ prev then
              ⟨Action.buy, p.position_size, "RSI oversold crossover"⟩
            else ⟨Action.hold, 0, "RSI and price diagnostic"⟩
          else if p.overbought < cur then
            if prev ≤ p.overbought then
              ⟨Action.sell, p.position_size, "RSI overbought crossover"⟩
            else ⟨Action.hold, 0, "RSI and price diagnostic"⟩
          else ⟨Action.hold, 0, "RSI and price diagnostic"⟩ : Signal), ⟨some cur⟩) := by
      unfold RSIStrategy.on_data
      rw [if_neg hne, hrsi]
    rw [hmain]
    refine ⟨?_, ?_, ?_, rfl, ?_⟩
    · split_ifs with h1 h2 h3 h4 <;> simp_all
    · split_ifs with h1 h2 h3 h4
      · have hnb : ¬ p.overbought < cur := by intro hx; linarith
        simp_all
      · have hnb : ¬ p.overbought < cur := by intro hx; linarith
        simp_all
      · simp_all
      · simp_all
      · simp_all
    · split_ifs <;> simp
    · intro hcur close2
      exact rsi_no_buy_of_last_below_oversold taRsi p cur close2 hcur

/-- C1 witness: with default parameters, previous RSI 40 and current RSI 25 on
a 15-bar window, the RSI strategy fires a buy. -/
theorem C1_witness :
    (RSIStrategy.on_data (fun _ _ => some 25) RSIStrategy.defaultParams ⟨some 40⟩
        (List.replicate 15 1)).1.action = Action.buy := by
  have h := (C1_rsi_threshold_cross (fun _ _ => some 25) RSIStrategy.defaultParams
      ⟨some 40⟩ (List.replicate 15 1) 25 (by norm_num [RSIStrategy.defaultParams])
      (by simp [RSIStrategy.defaultParams]) rfl).1
  exact (h.mpr ⟨40, rfl, by norm_num [RSIStrategy.defaultParams],
    by norm_num [RSIStrategy.defaultParams]⟩).1

/-- C2: with a long-enough window, both moving averages defined and previous
values present, `on_data` fires a buy of `position_size` shares exactly on a
golden cross (previous fast ≤ previous slow and current fast > current slow),
fires a sell of `position_size` exactly on a death cross (previous fast ≥
previous slow and current fast < current slow), and holds with quantity 0
whenever the ordering of fast and slow does not change across the two samples;
the state is overwritten with the current pair. -/
theorem C2_ma_crossover (taSma taEma : List ℚ → Nat → Option ℚ) (p : MAParams)
    (lf ls cf cs : ℚ) (close : List ℚ)
    (hlen : p.slow_period + 1 ≤ close.length)
    (hfast : MovingAverageCrossover.maOracle taSma taEma p close p.fast_period = some cf)
    (hslow : MovingAverageCrossover.maOracle taSma taEma p close p.slow_period = some cs) :
    ((MovingAverageCrossover.on_data taSma taEma p ⟨some lf, some ls⟩ close).1.action
          = Action.buy ∧
        (MovingAverageCrossover.on_data taSma taEma p ⟨some lf, some ls⟩ close).1.quantity
          = p.position_size ↔
      lf ≤ ls ∧ cs < cf) ∧
    ((MovingAverageCrossover.on_data taSma taEma p ⟨some lf, some ls⟩ close).1.action
          = Action.sell ∧
        (MovingAverageCrossover.on_data taSma taEma p ⟨some lf, some ls⟩ close).1.quantity
          = p.position_size ↔
      ls ≤ lf ∧ cf < cs) ∧
    ((lf < ls ∧ cf < cs) ∨ (ls < lf ∧ cs < cf) ∨ (lf = ls ∧ cf = cs) →
      (MovingAverageCrossover.on_data taSma taEma p ⟨some lf, some ls⟩ close).1.action
          = Action.hold ∧
        (MovingAverageCrossover.on_data taSma taEma p ⟨some lf, some ls⟩ close).1.quantity
          = 0) ∧
    (MovingAverageCrossover.on_data taSma taEma p ⟨some lf, some ls⟩ close).2
      = ⟨some cf, some cs⟩ := by
  have hne : ¬ close.length < p.slow_period + 1 := by omega
  have hmain : MovingAverageCrossover.on_data taSma taEma p ⟨some lf, some ls⟩ close =
      ((if lf ≤ ls ∧ cs < cf then
          ⟨Action.buy, p.position_size, "Golden cross"⟩
        else if ls ≤ lf ∧ cf < cs then
          ⟨Action.sell, p.position_size, "Death cross"⟩
        else ⟨Action.hold, 0, "MA values and price diagnostic"⟩ : Signal),
       ⟨some cf, some cs⟩) := by
    unfold MovingAverageCrossover.on_data
    rw [if_neg hne]
    dsimp only
    rw [hfast, hslow]
  rw [hmain]
  refine ⟨?_, ?_, ?_, rfl⟩
  · split_ifs with h1 h2 <;> simp_all
  · split_ifs with h1 h2
    · obtain ⟨h1a, h1b⟩ := h1
      have hnb : ¬ cf < cs := by intro hx; linarith
      simp_all
    · simp_all
    · simp_all
  · split_ifs with h1 h2
    · rintro (⟨ha, hb⟩ | ⟨ha, hb⟩ | ⟨ha, hb⟩) <;> exfalso <;>
        obtain ⟨h1a, h1b⟩ := h1 <;> linarith
    · rintro (⟨ha, hb⟩ | ⟨ha, hb⟩ | ⟨ha, hb⟩) <;> exfalso <;>
        obtain ⟨h2a, h2b⟩ := h2 <;> linarith
    · intro h3
      exact ⟨rfl, rfl⟩

/-- C2 witness: the specification's own golden-cross example (previous fast
9.5 ≤ previous slow 10.0, current fast 10.2 > current slow 10.1, default
parameters, 31-bar window) fires a buy of 10 shares. -/
theorem C2_witness :
    (MovingAverageCrossover.on_data (fun _ n => if n = 10 then some (51 / 5) else some (101 / 10))
        (fun _ _ => none) MovingAverageCrossover.defaultParams
        ⟨some (19 / 2), some 10⟩ (List.replicate 31 1)).1.action = Action.buy ∧
    (MovingAverageCrossover.on_data (fun _ n => if n = 10 then some (51 / 5) else some (101 / 10))
        (fun _ _ => none) MovingAverageCrossover.defaultParams
        ⟨some (19 / 2), some 10⟩ (List.replicate 31 1)).1.quantity = 10 := by
  have h := (C2_ma_crossover (fun _ n => if n = 10 then some (51 / 5) else some (101 / 10))
      (fun _ _ => none) MovingAverageCrossover.defaultParams (19 / 2) 10 (51 / 5) (101 / 10)
      (List.replicate 31 1) (by simp [MovingAverageCrossover.defaultParams])
      (by simp +decide [MovingAverageCrossover.maOracle, MovingAverageCrossover.defaultParams])
      (by simp +decide [MovingAverageCrossover.maOracle, MovingAverageCrossover.defaultParams])).1
  exact h.mpr ⟨by norm_num, by norm_num⟩

/-- C3: with a window shorter than the strategy-specific minimum lookback
(`rsi_period + 1`, `slow_period + 1`, `max(macd_slow, 30)` respectively), each
strategy returns a hold with quantity 0 and its diagnostic reason and leaves
its StrategyState unchanged, so a second call with the same short window
returns an identical signal. -/
theorem C3_insufficient_history
    (taRsi taSma taEma : List ℚ → Nat → Option ℚ)
    (taMacd : List ℚ → Nat → Nat → Nat → Option (ℚ × ℚ))
    (pR : RSIParams) (sR : RSIState) (pM : MAParams) (sM : MAState)
    (pD : MACDParams) (sD : MACDState) (closeR closeM closeD : List ℚ)
    (hR : closeR.length < pR.rsi_period + 1)
    (hM : closeM.length < pM.slow_period + 1)
    (hD : closeD.length < max pD.macd_slow 30) :
    RSIStrategy.on_data taRsi pR sR closeR
        = (⟨Action.hold, 0, "Insufficient data for RSI calculation"⟩, sR) ∧
    MovingAverageCrossover.on_data taSma taEma pM sM closeM
        = (⟨Action.hold, 0, "Insufficient data for MA calculation"⟩, sM) ∧
    MACDCrossover.on_data taMacd pD sD closeD
        = (⟨Action.hold, 0, "Insufficient data for MACD"⟩, sD) ∧
    (RSIStrategy.on_data taRsi pR (RSIStrategy.on_data taRsi pR sR closeR).2 closeR).1
        = (RSIStrategy.on_data taRsi pR sR closeR).1 ∧
    (MovingAverageCrossover.on_data taSma taEma pM
        (MovingAverageCrossover.on_data taSma taEma pM sM closeM).2 closeM).1
        = (MovingAverageCrossover.on_data taSma taEma pM sM closeM).1 ∧
    (MACDCrossover.on_data taMacd pD (MACDCrossover.on_data taMacd pD sD closeD).2 closeD).1
        = (MACDCrossover.on_data taMacd pD sD closeD).1 := by
  have h1 : RSIStrategy.on_data taRsi pR sR closeR
      = (⟨Action.hold, 0, "Insufficient data for RSI calculation"⟩, sR) := by
    unfold RSIStrategy.on_data
    rw [if_pos hR]
  have h2 : MovingAverageCrossover.on_data taSma taEma pM sM closeM
      = (⟨Action.hold, 0, "Insufficient data for MA calculation"⟩, sM) := by
    unfold MovingAverageCrossover.on_data
    rw [if_pos hM]
  have h3 : MACDCrossover.on_data taMacd pD sD closeD
      = (⟨Action.hold, 0, "Insufficient data for MACD"⟩, sD) := by
    unfold MACDCrossover.on_data
    rw [if_pos hD]
  have h1s : (RSIStrategy.on_data taRsi pR sR closeR).2 = sR := by rw [h1]
  have h2s : (MovingAverageCrossover.on_data taSma taEma pM sM closeM).2 = sM := by rw [h2]
  have h3s : (MACDCrossover.on_data taMacd pD sD closeD).2 = sD := by rw [h3]
  exact ⟨h1, h2, h3, by rw [h1s], by rw [h2s], by rw [h3s]⟩

/-- C3 witness: each strategy with default parameters, fresh state and an empty
window returns the short-window hold signal unchanged-state pair. -/
theorem C3_witness :
    RSIStrategy.on_data (fun _ _ => none) RSIStrategy.defaultParams RSIStrategy.freshState []
        = (⟨Action.hold, 0, "Insufficient data for RSI calculation"⟩, RSIStrategy.freshState) ∧
    MovingAverageCrossover.on_data (fun _ _ => none) (fun _ _ => none)
        MovingAverageCrossover.defaultParams MovingAverageCrossover.freshState []
        = (⟨Action.hold, 0, "Insufficient data for MA calculation"⟩,
           MovingAverageCrossover.freshState) ∧
    MACDCrossover.on_data (fun _ _ _ _ => none) MACDCrossover.defaultParams
        MACDCrossover.freshState []
        = (⟨Action.hold, 0, "Insufficient data for MACD"⟩, MACDCrossover.freshState) := by
  have h := C3_insufficient_history (fun _ _ => none) (fun _ _ => none) (fun _ _ => none)
    (fun _ _ _ _ => none) RSIStrategy.defaultParams RSIStrategy.freshState
    MovingAverageCrossover.defaultParams MovingAverageCrossover.freshState
    MACDCrossover.defaultParams MACDCrossover.freshState [] [] []
    (by decide) (by decide) (by decide)
  exact ⟨h.1, h.2.1, h.2.2.1⟩

/-- C4 (amended): for the three stateful crossover strategies (RSI, MA
crossover, MACD crossover), the first `evaluate` call on a freshly constructed
instance returns hold with quantity 0 for every window and every indicator
outcome: the previous-indicator memory is None, so no crossing can be
detected. (The Composite strategy is excluded: it is stateless and can fire on
its first call, see the counterexample.) -/
theorem C4_first_call_never_fires
    (taRsi taSma taEma : List ℚ → Nat → Option ℚ)
    (taMacd : List ℚ → Nat → Nat → Nat → Option (ℚ × ℚ))
    (pR : RSIParams) (pM : MAParams) (pD : MACDParams) (close : List ℚ) :
    ((RSIStrategy.on_data taRsi pR RSIStrategy.freshState close).1.action = Action.hold ∧
      (RSIStrategy.on_data taRsi pR RSIStrategy.freshState close).1.quantity = 0) ∧
    ((MovingAverageCrossover.on_data taSma taEma pM
        MovingAverageCrossover.freshState close).1.action = Action.hold ∧
      (MovingAverageCrossover.on_data taSma taEma pM
        MovingAverageCrossover.freshState close).1.quantity = 0) ∧
    ((MACDCrossover.on_data taMacd pD MACDCrossover.freshState close).1.action = Action.hold ∧
      (MACDCrossover.on_data taMacd pD MACDCrossover.freshState close).1.quantity = 0) := by
  refine ⟨?_, ?_, ?_⟩
  · unfold RSIStrategy.on_data RSIStrategy.freshState
    by_cases hlen : close.length < pR.rsi_period + 1
    · simp [hlen]
    · rcases hr : taRsi close pR.rsi_period with _ | cur
      · simp [hlen, hr]
      · simp only [hlen, if_false, hr]
        split_ifs <;> simp
  · unfold MovingAverageCrossover.on_data MovingAverageCrossover.freshState
    by_cases hlen : close.length < pM.slow_period + 1
    · simp [hlen]
    · rcases hf : MovingAverageCrossover.maOracle taSma taEma pM close pM.fast_period
          with _ | cf <;>
        rcases hs : MovingAverageCrossover.maOracle taSma taEma pM close pM.slow_period
          with _ | cs <;>
        simp [hlen, hf, hs]
  · unfold MACDCrossover.on_data MACDCrossover.freshState
    by_cases hlen : close.length < max pD.macd_slow 30
    · simp [hlen]
    · rcases hr : taMacd close pD.macd_fast pD.macd_slow pD.macd_signal
          with _ | ⟨cm, cs⟩ <;> simp [hlen, hr]

/-- C4 counterexample: the Composite strategy is stateless, so its very first
`evaluate` call on a freshly constructed instance fires a buy of 10 shares
when its three (single-sample) conditions hold — the claim's "returns hold
with quantity 0 on the first call, for every strategy variant" is false. -/
theorem C4_counterexample :
    (MyCustomStrategy.on_data taRsiOversold taMacdBullish MyCustomStrategy.defaultParams
        closeFifty volumeSpike).action = Action.buy ∧
    (MyCustomStrategy.on_data taRsiOversold taMacdBullish MyCustomStrategy.defaultParams
        closeFifty volumeSpike).quantity = 10 := by
  have hlast : volumeSpike.getLastD 0 = 100 := by rfl
  have hdrop : volumeSpike.drop (volumeSpike.length - 20)
      = [10, 10, 10, 10, 10, 10, 10, 10, 10, 10, 10, 10, 10, 10, 10, 10, 10, 10, 10, 100] := by
    rfl
  have hvol : MyCustomStrategy.avgVolume volumeSpike
      * MyCustomStrategy.defaultParams.volume_threshold < volumeSpike.getLastD 0 := by
    rw [hlast]
    unfold MyCustomStrategy.avgVolume
    rw [hdrop]
    norm_num [MyCustomStrategy.defaultParams]
  have hmain : MyCustomStrategy.on_data taRsiOversold taMacdBullish
      MyCustomStrategy.defaultParams closeFifty volumeSpike
      = ⟨Action.buy, 10, "All buy conditions met"⟩ := by
    unfold MyCustomStrategy.on_data taRsiOversold taMacdBullish
    rw [if_neg (by simp [closeFifty])]
    dsimp only
    rw [if_pos]
    · rfl
    · exact ⟨by norm_num [MyCustomStrategy.defaultParams], by norm_num, hvol⟩
  rw [hmain]
  exact ⟨rfl, rfl⟩

/-- C5: in the live Execution Policy, a sell signal with positive quantity is
admissible only while the current position is strictly positive, and the
quantity passed to `place_market_order` is `min(signal.quantity,
current_position)`; with a non-positive position no order is submitted. -/
theorem C5_sell_capped_at_position (positionQty q : ℚ) (r : String)
    (submitRes : Except String String) (hq : 0 < q) :
    (0 < positionQty →
      LiveTrader.execute_signal (Except.ok positionQty) submitRes ⟨Action.sell, q, r⟩
        = (some ⟨Action.sell, min q positionQty⟩, LiveTrader.place_market_order submitRes)) ∧
    (positionQty ≤ 0 →
      LiveTrader.execute_signal (Except.ok positionQty) submitRes ⟨Action.sell, q, r⟩
        = (none, false)) := by
  have hq0 : ¬ (Action.sell = Action.hold ∨ q = 0) := by
    simp
    exact ne_of_gt hq
  constructor
  · intro hpos
    unfold LiveTrader.execute_signal LiveTrader.get_current_position
    dsimp only
    rw [if_neg hq0, if_pos hpos]
  · intro hpos
    unfold LiveTrader.execute_signal LiveTrader.get_current_position
    dsimp only
    rw [if_neg hq0, if_neg (not_lt.mpr hpos)]

/-- C5 witness: a sell of 50 against a held position of 20 submits an order
for exactly 20 shares; a sell while flat (position 0) submits no order. -/
theorem C5_witness :
    LiveTrader.execute_signal (Except.ok 20) (Except.ok "id") ⟨Action.sell, 50, "x"⟩
      = (some ⟨Action.sell, 20⟩, true) ∧
    LiveTrader.execute_signal (Except.ok 0) (Except.ok "id") ⟨Action.sell, 50, "x"⟩
      = (none, false) := by
  constructor
  · have h := (C5_sell_capped_at_position 20 50 "x" (Except.ok "id")
      (by norm_num)).1 (by norm_num)
    rw [h]
    norm_num [LiveTrader.place_market_order]
  · exact (C5_sell_capped_at_position 0 50 "x" (Except.ok "id") (by norm_num)).2 le_rfl

/-- C6: in the live Execution Policy, a buy signal with positive quantity is
admissible exactly when the current position is non-negative (flat or already
long), and an admissible buy passes exactly the signal's quantity to
`place_market_order`; with a negative (short) position no order is
submitted. -/
theorem C6_buy_requires_nonneg_position (positionQty q : ℚ) (r : String)
    (submitRes : Except String String) (hq : 0 < q) :
    (0 ≤ positionQty →
      LiveTrader.execute_signal (Except.ok positionQty) submitRes ⟨Action.buy, q, r⟩
        = (some ⟨Action.buy, q⟩, LiveTrader.place_market_order submitRes)) ∧
    (positionQty < 0 →
      LiveTrader.execute_signal (Except.ok positionQty) submitRes ⟨Action.buy, q, r⟩
        = (none, false)) := by
  have hq0 : ¬ (Action.buy = Action.hold ∨ q = 0) := by
    simp
    exact ne_of_gt hq
  constructor
  · intro hpos
    unfold LiveTrader.execute_signal LiveTrader.get_current_position
    dsimp only
    rw [if_neg hq0, if_pos hpos]
  · intro hpos
    unfold LiveTrader.execute_signal LiveTrader.get_current_position
    dsimp only
    rw [if_neg hq0, if_neg (not_le.mpr hpos)]

/-- C6 witness: a buy of 10 while already long 30 shares is still admissible
and submits an order for exactly 10 shares (no pyramiding restriction at this
layer); a buy while short 5 shares submits no order. -/
theorem C6_witness :
    LiveTrader.execute_signal (Except.ok 30) (Except.ok "id") ⟨Action.buy, 10, "x"⟩
      = (some ⟨Action.buy, 10⟩, true) ∧
    LiveTrader.execute_signal (Except.ok (-5)) (Except.ok "id") ⟨Action.buy, 10, "x"⟩
      = (none, false) := by
  constructor
  · have h := (C6_buy_requires_nonneg_position 30 10 "x" (Except.ok "id")
      (by norm_num)).1 (by norm_num)
    rw [h]
    norm_num [LiveTrader.place_market_order]
  · exact (C6_buy_requires_nonneg_position (-5) 10 "x" (Except.ok "id")
      (by norm_num)).2 (by norm_num)

/-- C7: in the backtest adapter's per-bar step, a pending order suppresses the
whole decision (the wrapper state — strategy state included — is unchanged
and no order is created), and a buy order can only be created while the
simulated position is empty (size 0), so the backtest path never adds to an
existing position. -/
theorem C7_backtest_pending_suppression {σ : Type} (step : σ → List ℚ → Signal × σ)
    (position : ℚ) (frame : List ℚ) (w : WrapperState σ) (o : Order) (q : ℚ) :
    (w.order = some o → BacktraderStrategyWrapper.next step position frame w = (w, none)) ∧
    (position ≠ 0 →
      (BacktraderStrategyWrapper.next step position frame w).2 ≠ some ⟨Action.buy, q⟩) := by
  constructor
  · intro ho
    unfold BacktraderStrategyWrapper.next
    rw [ho]
  · intro hpos
    unfold BacktraderStrategyWrapper.next
    rcases w with ⟨ord, s⟩
    rcases ord with _ | o2
    · dsimp only
      split_ifs <;> simp_all
    · dsimp only
      simp

/-- C7 witness: with a pending order the step is a no-op even though the
strategy would signal a buy; with a nonzero position no buy order is
created. -/
theorem C7_witness :
    BacktraderStrategyWrapper.next (fun (_ : Unit) _ => (⟨Action.buy, 10, "x"⟩, ()))
        0 [] ⟨some ⟨Action.buy, 10⟩, ()⟩ = (⟨some ⟨Action.buy, 10⟩, ()⟩, none) ∧
    (BacktraderStrategyWrapper.next (fun (_ : Unit) _ => (⟨Action.buy, 10, "x"⟩, ()))
        5 [] ⟨none, ()⟩).2 ≠ some ⟨Action.buy, 10⟩ := by
  constructor
  · exact (C7_backtest_pending_suppression (fun (_ : Unit) _ => (⟨Action.buy, 10, "x"⟩, ()))
      0 [] ⟨some ⟨Action.buy, 10⟩, ()⟩ ⟨Action.buy, 10⟩ 10).1 rfl
  · exact (C7_backtest_pending_suppression (fun (_ : Unit) _ => (⟨Action.buy, 10, "x"⟩, ()))
      5 [] ⟨none, ()⟩ ⟨Action.buy, 10⟩ 10).2 (by norm_num)

/-- C9: in the backtest adapter, a sell signal with positive quantity while
any nonzero position exists creates a sell order for the full signal
quantity — no min(quantity, position) cap is applied at this layer, so the
requested sell size can exceed the held position. -/
theorem C9_backtest_sell_uncapped {σ : Type} (step : σ → List ℚ → Signal × σ)
    (position q : ℚ) (frame : List ℚ) (s s2 : σ) (r : String)
    (hstep : step s frame = (⟨Action.sell, q, r⟩, s2)) (hq : 0 < q) (hpos : position ≠ 0) :
    BacktraderStrategyWrapper.next step position frame ⟨none, s⟩
      = (⟨some ⟨Action.sell, q⟩, s2⟩, some ⟨Action.sell, q⟩) := by
  unfold BacktraderStrategyWrapper.next
  dsimp only
  rw [hstep]
  dsimp only
  rw [if_neg (by simp), if_pos ⟨rfl, hq⟩, if_pos hpos]

/-- C9 witness: a sell signal of 50 shares against a held position of 20
creates a sell order for the full 50 shares. -/
theorem C9_witness :
    BacktraderStrategyWrapper.next (fun (_ : Unit) _ => (⟨Action.sell, 50, "x"⟩, ()))
        20 [] ⟨none, ()⟩ = (⟨some ⟨Action.sell, 50⟩, ()⟩, some ⟨Action.sell, 50⟩) :=
  C9_backtest_sell_uncapped (fun (_ : Unit) _ => (⟨Action.sell, 50, "x"⟩, ()))
    20 50 [] () () "x" rfl (by norm_num) (by norm_num)

/-- C10: `get_current_position` maps every raised exception of the broker
position lookup to 0.0, so the rest of the cycle cannot distinguish a failed
lookup from a flat position: `execute_signal` behaves exactly as with
position 0 — a sell signal submits no order and a buy signal (with nonzero
quantity) is admissible and submits its full quantity. -/
theorem C10_failed_position_lookup_reads_flat (e : String)
    (submitRes : Except String String) (sig : Signal) :
    LiveTrader.get_current_position (Except.error e) = 0 ∧
    LiveTrader.execute_signal (Except.error e) submitRes sig
      = LiveTrader.execute_signal (Except.ok 0) submitRes sig ∧
    (sig.action = Action.sell →
      (LiveTrader.execute_signal (Except.error e) submitRes sig).1 = none) ∧
    (sig.action = Action.buy → sig.quantity ≠ 0 →
      (LiveTrader.execute_signal (Except.error e) submitRes sig).1
        = some ⟨Action.buy, sig.quantity⟩) := by
  refine ⟨rfl, rfl, ?_, ?_⟩
  · intro ha
    rcases sig with ⟨a, qty, rr⟩
    dsimp only at ha
    subst ha
    unfold LiveTrader.execute_signal LiveTrader.get_current_position
    dsimp only
    by_cases hqty : qty = 0
    · rw [if_pos (Or.inr hqty)]
    · rw [if_neg (by simp [hqty]), if_neg (lt_irrefl 0)]
  · intro ha hqty
    rcases sig with ⟨a, qty, rr⟩
    dsimp only at ha hqty ⊢
    subst ha
    unfold LiveTrader.execute_signal LiveTrader.get_current_position
    dsimp only
    rw [if_neg (by simp [hqty]), if_pos le_rfl]

/-- Helper: with a successful data fetch, `run_once` always returns
normally — position-lookup and order-submission failures are caught inside
the cycle and cannot raise out of it. -/
theorem run_once_ok_of_fetch_ok {σ : Type} (step : σ → List ℚ → Signal × σ)
    (env : CycleEnv) (s : σ) (d : List ℚ) (hd : env.fetch = Except.ok d) :
    ∃ out, LiveTrader.run_once step env s = Except.ok out := by
  unfold LiveTrader.run_once
  rw [hd]
  dsimp only
  by_cases hde : d.isEmpty
  · rw [if_pos hde]
    exact ⟨_, rfl⟩
  · rw [if_neg hde]
    exact ⟨_, rfl⟩

/-- Helper: if every scheduled cycle's data fetch succeeds, the live loop
never terminates early: every cycle runs to completion regardless of
position-lookup or order-submission failures. -/
theorem run_completes_of_fetch_ok {σ : Type} (step : σ → List ℚ → Signal × σ) :
    ∀ (envs : List CycleEnv) (s : σ),
      (∀ env ∈ envs, ∃ d, env.fetch = Except.ok d) →
      (LiveTrader.run step envs s).2 = none ∧
      (LiveTrader.run step envs s).1.length = envs.length := by
  intro envs
  induction envs with
  | nil =>
    intro s _
    exact ⟨rfl, rfl⟩
  | cons env rest ih =>
    intro s h
    obtain ⟨d, hd⟩ := h env (List.mem_cons_self env rest)
    obtain ⟨out, hout⟩ := run_once_ok_of_fetch_ok step env s d hd
    rcases out with ⟨s2, ord⟩
    have hrest := ih s2 (fun env2 hm => h env2 (List.mem_cons_of_mem env hm))
    unfold LiveTrader.run
    rw [hout]
    dsimp only
    exact ⟨hrest.1, by simp [hrest.2]⟩

/-- C8 (amended): during a live cycle, an order-submission (or position
lookup) failure is caught inside the cycle and is fatal only for that cycle —
if every scheduled fetch succeeds, the loop completes every cycle no matter
what the broker calls return; a historical-data-fetch failure, however, is
not caught anywhere (`run`'s try/except catches only KeyboardInterrupt): it
propagates out of `run_once` and terminates the loop at once, so no later
scheduled cycle runs. -/
theorem C8_submission_failure_cycle_local {σ : Type}
    (step : σ → List ℚ → Signal × σ) (s : σ) (envs : List CycleEnv)
    (env : CycleEnv) (rest : List CycleEnv) (e : String) :
    ((∀ env2 ∈ envs, ∃ d, env2.fetch = Except.ok d) →
      (LiveTrader.run step envs s).2 = none ∧
      (LiveTrader.run step envs s).1.length = envs.length) ∧
    (env.fetch = Except.error e →
      LiveTrader.run step (env :: rest) s = ([], some e)) := by
  constructor
  · exact run_completes_of_fetch_ok step envs s
  · intro he
    unfold LiveTrader.run LiveTrader.run_once
    rw [he]

/-- C8 witness: a cycle whose order submission fails still completes and the
loop goes on (no early termination); a cycle whose data fetch raises
terminates the loop with that error. -/
theorem C8_witness :
    ((LiveTrader.run (fun (_ : Unit) _ => (⟨Action.buy, 10, "r"⟩, ()))
        [⟨Except.ok [1], Except.ok 0, Except.error "submit failed"⟩] ()).2 = none ∧
      (LiveTrader.run (fun (_ : Unit) _ => (⟨Action.buy, 10, "r"⟩, ()))
        [⟨Except.ok [1], Except.ok 0, Except.error "submit failed"⟩] ()).1.length = 1) ∧
    LiveTrader.run (fun (_ : Unit) _ => (⟨Action.buy, 10, "r"⟩, ()))
        [⟨Except.error "connection error", Except.ok 0, Except.ok "id"⟩] ()
      = ([], some "connection error") := by
  constructor
  · refine (C8_submission_failure_cycle_local (fun (_ : Unit) _ => (⟨Action.buy, 10, "r"⟩, ()))
      () [⟨Except.ok [1], Except.ok 0, Except.error "submit failed"⟩]
      ⟨Except.error "connection error", Except.ok 0, Except.ok "id"⟩ [] "connection error").1 ?_
    intro env2 hm
    rw [List.mem_singleton] at hm
    subst hm
    exact ⟨[1], rfl⟩
  · exact (C8_submission_failure_cycle_local (fun (_ : Unit) _ => (⟨Action.buy, 10, "r"⟩, ()))
      () [⟨Except.ok [1], Except.ok 0, Except.error "submit failed"⟩]
      ⟨Except.error "connection error", Except.ok 0, Except.ok "id"⟩ [] "connection error").2 rfl

/-- C8 counterexample: with a data-fetch failure in the first cycle and a
healthy second cycle scheduled, the loop terminates with the uncaught error
after zero completed cycles — it does not print-and-proceed to the next
scheduled cycle as the claim states (`get_historical_data` and `run_once`
have no try/except, and `run` catches only KeyboardInterrupt). -/
theorem C8_counterexample :
    LiveTrader.run (fun (_ : Unit) _ => (⟨Action.hold, 0, "r"⟩, ()))
        [cycleFetchFails, cycleHealthy] () = ([], some "connection error") := rfl

/-- C10 witness: with the position lookup raising, a sell of 50 submits no
order, while a buy of 50 submits an order for 50 shares. -/
theorem C10_witness :
    (LiveTrader.execute_signal (Except.error "network down") (Except.ok "id")
        ⟨Action.sell, 50, "x"⟩).1 = none ∧
    (LiveTrader.execute_signal (Except.error "network down") (Except.ok "id")
        ⟨Action.buy, 50, "x"⟩).1 = some ⟨Action.buy, 50⟩ := by
  constructor
  · exact (C10_failed_position_lookup_reads_flat "network down" (Except.ok "id")
      ⟨Action.sell, 50, "x"⟩).2.2.1 rfl
  · exact (C10_failed_position_lookup_reads_flat "network down" (Except.ok "id")
      ⟨Action.buy, 50, "x"⟩).2.2.2 rfl (by norm_num)

end Trading
